import Mathlib

/-!
Shallow embedding of the air-Q integration of home-assistant-core:
  - homeassistant/components/airq/config_flow.py (setup wizard)
  - homeassistant/components/airq/sensor.py (sensor catalog and factory)

Python values that flow through the integration (entries of the mapping
returned by the device client, entries of the coordinator data mapping)
are embedded as the inductive type PyVal; Python dictionaries are
association lists whose first matching key wins, as in a dict with unique
keys. Exceptions are embedded as the type PyExc and fallible code returns
Except PyExc. The external device client (the aioairq library, an
external dependency outside this repository) is a parameter: a record of
the results of its two calls.
-/

/-- Embedded Python values: None, numbers (exact rationals stand in for
int/float), strings, and dictionaries. -/
inductive PyVal where
  | none : PyVal
  | num : ℚ → PyVal
  | str : String → PyVal
  | dict : List (String × PyVal) → PyVal

/-- Embedded Python exceptions, as the except clauses of
ConfigFlow.async_step_user distinguish them: the two module classes
CannotConnect and InvalidAuth (config_flow.py lines 109-114), and every
other exception, carried with its class name. -/
inductive PyExc where
  | cannotConnect : PyExc
  | invalidAuth : PyExc
  | other : String → PyExc
deriving DecidableEq

/-- Python dict lookup d[k] as Option: first binding of the key. -/
def dictGet (d : List (String × PyVal)) (k : String) : Option PyVal :=
  (d.find? (fun kv => kv.1 == k)).map (fun kv => kv.2)

/-- Python indexing d[k]: raises KeyError when the key is absent. -/
def pyIndex (d : List (String × PyVal)) (k : String) : Except PyExc PyVal :=
  match dictGet d k with
  | Option.none => Except.error (PyExc.other "KeyError")
  | Option.some v => Except.ok v

/-- Python d.get(k): the value when present, None when absent. -/
def pyGet (d : List (String × PyVal)) (k : String) : PyVal :=
  (dictGet d k).getD PyVal.none

/-- Python string conversion used by the f-string in validate_input.
Only the string case is exercised by the claims; the numeric rendering is
an approximation (Lean rational notation, not Python float repr). -/
def pyStr : PyVal → String
  | PyVal.none => "None"
  | PyVal.num q => toString q
  | PyVal.str s => s
  | PyVal.dict _ => "dict"

/-- Boolean substring test, embedding the Python operator needle in hay
on strings. -/
def strContains (hay needle : String) : Bool :=
  decide (needle.toList <:+: hay.toList)

/-- The Python membership operator needle in v for a string needle and an
arbitrary value v: substring test on a string, key membership on a dict,
TypeError on values that are not containers (None, numbers). -/
def pyInStr (needle : String) (v : PyVal) : Except PyExc Bool :=
  match v with
  | PyVal.str s => Except.ok (strContains s needle)
  | PyVal.dict d => Except.ok (d.any (fun kv => kv.1 == needle))
  | PyVal.none => Except.error (PyExc.other "TypeError")
  | PyVal.num _ => Except.error (PyExc.other "TypeError")

/-- Modelled from the spec: the integration constants module (const.py,
repository code not under src/). Section 6 of the spec describes the
credentials form and the created configuration record; the keys are the
standard platform constants: CONF_ID is "id", CONF_IP_ADDRESS is
"ip_address", and CONF_SECRET is "secret". -/
def CONF_ID : String := "id"

/-- Modelled from the spec: see CONF_ID. -/
def CONF_IP_ADDRESS : String := "ip_address"

/-- Modelled from the spec: see CONF_ID. -/
def CONF_SECRET : String := "secret"

/-- The behaviour of one constructed device client (aioairq.AirQ object
wrapped in PlaceholderHub): the result of awaiting test_authentication
(a bool, or an exception), and the result of awaiting get of the config
endpoint (a mapping, or an exception). The client library is an external
dependency; its behaviour is a parameter of the embedding. -/
structure DeviceClient where
  test_authentication : Except PyExc Bool
  get_config : Except PyExc (List (String × PyVal))

/-- The two network calls validate_input can make, in the order made;
recorded so that theorems can speak about which endpoints were hit. -/
inductive ClientCall where
  | testAuth : ClientCall
  | getConfig : ClientCall
deriving DecidableEq

/-- The value validate_input returns on success: the dict with keys
"title" and "id" (config_flow.py line 70). CONF_ID is "id", so the
field id is what async_step_user reads as info[CONF_ID]. -/
structure ValidationInfo where
  title : String
  id : PyVal

/-- Embedding of validate_input (config_flow.py lines 45-70) together
with the trace of client calls it performs. clientOf gives the behaviour
of the AirQ client constructed by PlaceholderHub from the address and the
secret taken from the user data; a missing key in the data raises
KeyError before any network call. The function authenticates first; a
False answer raises InvalidAuth; only then is the config endpoint
fetched, and the result dict is built from the f-string
"Air-Q " followed by the devicename, and from the id entry. The
PlaceholderHub object (config_flow.py lines 29-42) merely wraps the
constructed AirQ client, so hub construction is inlined here as
clientOf address secret. -/
def validate_input (clientOf : String → String → DeviceClient)
    (data : List (String × String)) :
    Except PyExc ValidationInfo × List ClientCall :=
  match (data.find? (fun kv => kv.1 == CONF_IP_ADDRESS)).map Prod.snd with
  | Option.none => (Except.error (PyExc.other "KeyError"), [])
  | Option.some address =>
    match (data.find? (fun kv => kv.1 == CONF_SECRET)).map Prod.snd with
    | Option.none => (Except.error (PyExc.other "KeyError"), [])
    | Option.some secret =>
      match (clientOf address secret).test_authentication with
      | Except.error e => (Except.error e, [ClientCall.testAuth])
      | Except.ok false =>
          (Except.error PyExc.invalidAuth, [ClientCall.testAuth])
      | Except.ok true =>
        match (clientOf address secret).get_config with
        | Except.error e =>
            (Except.error e, [ClientCall.testAuth, ClientCall.getConfig])
        | Except.ok config =>
          match pyIndex config "devicename" with
          | Except.error e =>
              (Except.error e, [ClientCall.testAuth, ClientCall.getConfig])
          | Except.ok dn =>
            match pyIndex config "id" with
            | Except.error e =>
                (Except.error e,
                  [ClientCall.testAuth, ClientCall.getConfig])
            | Except.ok idv =>
                (Except.ok { title := "Air-Q " ++ pyStr dn, id := idv },
                  [ClientCall.testAuth, ClientCall.getConfig])

/-- The outcome of one invocation of async_step_user: the form is shown
(with its step id and its errors dict), a config entry is created (with
the unique id set on the flow, the title, and the entry data), or the
flow aborts because the unique id is already configured. -/
inductive FlowResult where
  | showForm : String → List (String × String) → FlowResult
  | createEntry : PyVal → String → List (String × String) → FlowResult
  | abort : String → FlowResult

/-- The observable result of async_step_user: the flow result, the log
records emitted, and the client calls performed. -/
structure StepResult where
  result : FlowResult
  log : List String
  calls : List ClientCall

/-- Embedding of ConfigFlow.async_step_user (config_flow.py lines
78-106). With no user input the form is shown with no errors. Otherwise
validate_input runs once; CannotConnect maps to the form error
cannot_connect, InvalidAuth to invalid_auth, and any other exception is
logged ("Unexpected exception") and maps to unknown. On success the
unique id is set to info[CONF_ID], the flow aborts when that unique id
is already configured, and otherwise an entry is created with the
derived title and the raw user input as data. -/
def async_step_user (clientOf : String → String → DeviceClient)
    (alreadyConfigured : PyVal → Bool)
    (user_input : Option (List (String × String))) : StepResult :=
  match user_input with
  | Option.none =>
      { result := FlowResult.showForm "user" [], log := [], calls := [] }
  | Option.some input =>
    match validate_input clientOf input with
    | (Except.ok info, calls) =>
        if alreadyConfigured info.id then
          { result := FlowResult.abort "already_configured",
            log := [], calls := calls }
        else
          { result := FlowResult.createEntry info.id info.title input,
            log := [], calls := calls }
    | (Except.error PyExc.cannotConnect, calls) =>
        { result := FlowResult.showForm "user" [("base", "cannot_connect")],
          log := [], calls := calls }
    | (Except.error PyExc.invalidAuth, calls) =>
        { result := FlowResult.showForm "user" [("base", "invalid_auth")],
          log := [], calls := calls }
    | (Except.error (PyExc.other _), calls) =>
        { result := FlowResult.showForm "user" [("base", "unknown")],
          log := ["Unexpected exception"], calls := calls }

/-- Framework unit constant (homeassistant.const); its exact value does
not enter any claim. -/
def CONCENTRATION_MICROGRAMS_PER_CUBIC_METER : String := "µg/m³"

/-- Framework unit constant. -/
def CONCENTRATION_MILLIGRAMS_PER_CUBIC_METER : String := "mg/m³"

/-- Framework unit constant. -/
def CONCENTRATION_PARTS_PER_BILLION : String := "ppb"

/-- Framework unit constant. -/
def CONCENTRATION_PARTS_PER_MILLION : String := "ppm"

/-- Framework unit constant. -/
def PERCENTAGE : String := "%"

/-- Framework unit constant. -/
def PRESSURE_HPA : String := "hPa"

/-- Framework unit constant. -/
def SOUND_PRESSURE_WEIGHTED_DBA : String := "dBA"

/-- Framework unit constant. -/
def TEMP_CELSIUS : String := "°C"

/-- Integration unit constant (const.py, not under src/). -/
def ACTIVITY_BECQUEREL_PER_CUBIC_METER : String := "Bq/m³"

/-- Integration unit constant (const.py, not under src/). -/
def CONCENTRATION_GRAMS_PER_CUBIC_METER : String := "g/m³"

/-- Embedding of AirQEntityDescription (sensor.py lines 39-46): a sensor
entity description whose value_transform_fn defaults to the identity
(lambda x: x, which never raises). Device class, state class and icon are
framework enum and string values, kept as optional strings. -/
structure AirQEntityDescription where
  key : String
  name : String
  device_class : Option String := Option.none
  native_unit_of_measurement : Option String := Option.none
  state_class : Option String := Option.none
  icon : Option String := Option.none
  value_transform_fn : PyVal → Except PyExc PyVal := fun x => Except.ok x

/-- Embedding of _index2percent (sensor.py lines 49-51): divide the index
value by 10. On None (a warming-up reading) or a string the Python
division raises TypeError. -/
def _index2percent : PyVal → Except PyExc PyVal
  | PyVal.num q => Except.ok (PyVal.num (q / 10))
  | _ => Except.error (PyExc.other "TypeError")

/-- Embedding of SENSOR_TYPES (sensor.py lines 55-277): the static sensor
catalog, in source order. -/
def SENSOR_TYPES : List AirQEntityDescription := [
  { key := "nh3_MR100", name := "Ammonia",
    native_unit_of_measurement := Option.some CONCENTRATION_MICROGRAMS_PER_CUBIC_METER,
    state_class := Option.some "measurement" },
  { key := "cl2_M20", name := "Chlorine",
    native_unit_of_measurement := Option.some CONCENTRATION_MICROGRAMS_PER_CUBIC_METER,
    state_class := Option.some "measurement" },
  { key := "co", name := "CO",
    device_class := Option.some "carbon_monoxide",
    native_unit_of_measurement := Option.some CONCENTRATION_MILLIGRAMS_PER_CUBIC_METER,
    state_class := Option.some "measurement" },
  { key := "co2", name := "CO2",
    device_class := Option.some "carbon_dioxide",
    native_unit_of_measurement := Option.some CONCENTRATION_PARTS_PER_MILLION,
    state_class := Option.some "measurement" },
  { key := "dewpt", name := "Dew point",
    native_unit_of_measurement := Option.some TEMP_CELSIUS,
    state_class := Option.some "measurement",
    icon := Option.some "mdi:water-thermometer" },
  { key := "ethanol", name := "Ethanol",
    native_unit_of_measurement := Option.some CONCENTRATION_MICROGRAMS_PER_CUBIC_METER,
    state_class := Option.some "measurement" },
  { key := "ch2o_M10", name := "Formaldehyde",
    native_unit_of_measurement := Option.some CONCENTRATION_MICROGRAMS_PER_CUBIC_METER,
    state_class := Option.some "measurement" },
  { key := "h2s", name := "H2S",
    native_unit_of_measurement := Option.some CONCENTRATION_MICROGRAMS_PER_CUBIC_METER,
    state_class := Option.some "measurement" },
  { key := "health", name := "Health Index",
    native_unit_of_measurement := Option.some PERCENTAGE,
    state_class := Option.some "measurement",
    icon := Option.some "mdi:heart-pulse",
    value_transform_fn := _index2percent },
  { key := "humidity", name := "Humidity",
    device_class := Option.some "humidity",
    native_unit_of_measurement := Option.some PERCENTAGE,
    state_class := Option.some "measurement" },
  { key := "humidity_abs", name := "Absolute humidity",
    native_unit_of_measurement := Option.some CONCENTRATION_GRAMS_PER_CUBIC_METER,
    state_class := Option.some "measurement",
    icon := Option.some "mdi:water" },
  { key := "h2_M1000", name := "Hydrogen",
    native_unit_of_measurement := Option.some CONCENTRATION_MICROGRAMS_PER_CUBIC_METER,
    state_class := Option.some "measurement" },
  { key := "ch4_MIPEX", name := "Methane",
    native_unit_of_measurement := Option.some PERCENTAGE,
    state_class := Option.some "measurement" },
  { key := "n2o", name := "N2O",
    device_class := Option.some "nitrous_oxide",
    native_unit_of_measurement := Option.some CONCENTRATION_MICROGRAMS_PER_CUBIC_METER,
    state_class := Option.some "measurement" },
  { key := "no_M250", name := "NO",
    device_class := Option.some "nitrogen_monoxide",
    native_unit_of_measurement := Option.some CONCENTRATION_MICROGRAMS_PER_CUBIC_METER,
    state_class := Option.some "measurement" },
  { key := "no2", name := "NO2",
    device_class := Option.some "nitrogen_dioxide",
    native_unit_of_measurement := Option.some CONCENTRATION_MICROGRAMS_PER_CUBIC_METER,
    state_class := Option.some "measurement" },
  { key := "o3", name := "Ozone",
    device_class := Option.some "ozone",
    native_unit_of_measurement := Option.some CONCENTRATION_MICROGRAMS_PER_CUBIC_METER,
    state_class := Option.some "measurement" },
  { key := "oxygen", name := "Oxygen",
    native_unit_of_measurement := Option.some PERCENTAGE,
    state_class := Option.some "measurement",
    icon := Option.some "mdi:leaf" },
  { key := "performance", name := "Performance Index",
    native_unit_of_measurement := Option.some PERCENTAGE,
    state_class := Option.some "measurement",
    icon := Option.some "mdi:head-check",
    value_transform_fn := _index2percent },
  { key := "pm1", name := "PM1",
    device_class := Option.some "pm1",
    native_unit_of_measurement := Option.some CONCENTRATION_MICROGRAMS_PER_CUBIC_METER,
    state_class := Option.some "measurement",
    icon := Option.some "mdi:dots-hexagon" },
  { key := "pm2_5", name := "PM2.5",
    device_class := Option.some "pm25",
    native_unit_of_measurement := Option.some CONCENTRATION_MICROGRAMS_PER_CUBIC_METER,
    state_class := Option.some "measurement",
    icon := Option.some "mdi:dots-hexagon" },
  { key := "pm10", name := "PM10",
    device_class := Option.some "pm10",
    native_unit_of_measurement := Option.some CONCENTRATION_MICROGRAMS_PER_CUBIC_METER,
    state_class := Option.some "measurement",
    icon := Option.some "mdi:dots-hexagon" },
  { key := "pressure", name := "Pressure",
    device_class := Option.some "pressure",
    native_unit_of_measurement := Option.some PRESSURE_HPA,
    state_class := Option.some "measurement" },
  { key := "pressure_rel", name := "Relative pressure",
    native_unit_of_measurement := Option.some PRESSURE_HPA,
    state_class := Option.some "measurement",
    icon := Option.some "mdi:gauge" },
  { key := "c3h8_MIPEX", name := "Propane",
    native_unit_of_measurement := Option.some PERCENTAGE,
    state_class := Option.some "measurement" },
  { key := "so2", name := "SO2",
    device_class := Option.some "sulphur_dioxide",
    native_unit_of_measurement := Option.some CONCENTRATION_MICROGRAMS_PER_CUBIC_METER,
    state_class := Option.some "measurement" },
  { key := "sound", name := "Noise",
    native_unit_of_measurement := Option.some SOUND_PRESSURE_WEIGHTED_DBA,
    state_class := Option.some "measurement",
    icon := Option.some "mdi:ear-hearing" },
  { key := "sound_max", name := "Noise (Maximum)",
    native_unit_of_measurement := Option.some SOUND_PRESSURE_WEIGHTED_DBA,
    state_class := Option.some "measurement",
    icon := Option.some "mdi:ear-hearing" },
  { key := "radon", name := "Radon",
    native_unit_of_measurement := Option.some ACTIVITY_BECQUEREL_PER_CUBIC_METER,
    state_class := Option.some "measurement",
    icon := Option.some "mdi:radioactive" },
  { key := "temperature", name := "Temperature",
    device_class := Option.some "temperature",
    native_unit_of_measurement := Option.some TEMP_CELSIUS,
    state_class := Option.some "measurement" },
  { key := "tvoc", name := "VOC",
    device_class := Option.some "volatile_organic_compounds",
    native_unit_of_measurement := Option.some CONCENTRATION_PARTS_PER_BILLION,
    state_class := Option.some "measurement" },
  { key := "tvoc_ionsc", name := "VOC (Industrial)",
    device_class := Option.some "volatile_organic_compounds",
    native_unit_of_measurement := Option.some CONCENTRATION_PARTS_PER_BILLION,
    state_class := Option.some "measurement" }]

/-- The coordinator as the sensor platform observes it (AirQCoordinator
lives in the package init module, not under src/): the polled data
mapping, and the device id used for unique ids. -/
structure Coordinator where
  data : List (String × PyVal)
  device_id : String

/-- The status string fragment that marks a warming-up sensor
(sensor.py line 294). -/
def warmupPhrase : String := "sensor still in warm up phase"

/-- The list comprehension of sensor.py lines 293-295: keys of the Status
dict whose value contains the warm-up phrase, tested in insertion order;
a non-container status value raises TypeError. -/
def warmingUpSensors : List (String × PyVal) → Except PyExc (List String)
  | [] => Except.ok []
  | (k, v) :: rest =>
    match pyInStr warmupPhrase v with
    | Except.error e => Except.error e
    | Except.ok b =>
      match warmingUpSensors rest with
      | Except.error e => Except.error e
      | Except.ok tail => Except.ok (if b then k :: tail else tail)

/-- The available_keys computation of async_setup_entry (sensor.py lines
288-301): the keys of the coordinator data, indexing the data at "Status"
(KeyError when absent), and, when the status is a dict, extending with
the warming-up keys. A non-dict status skips the warm-up scan. -/
def availableKeysOf (coordinator : Coordinator) : Except PyExc (List String) :=
  let available_keys := coordinator.data.map Prod.fst
  match pyIndex coordinator.data "Status" with
  | Except.error e => Except.error e
  | Except.ok status =>
    match status with
    | PyVal.dict st =>
      match warmingUpSensors st with
      | Except.error e => Except.error e
      | Except.ok warming_up_sensors =>
          Except.ok (available_keys ++ warming_up_sensors)
    | _ => Except.ok available_keys

/-- Embedding of an AirQSensor object as built by AirQSensor.__init__
(sensor.py lines 324-335): it keeps the coordinator and the description,
its name is the description name, and its unique id is the device id
joined to the description key by an underscore. -/
structure AirQSensor where
  coordinator : Coordinator
  entity_description : AirQEntityDescription
  name : String
  unique_id : String

/-- AirQSensor.__init__ (sensor.py lines 324-335). -/
def mkAirQSensor (coordinator : Coordinator)
    (description : AirQEntityDescription) : AirQSensor :=
  { coordinator := coordinator,
    entity_description := description,
    name := description.name,
    unique_id := coordinator.device_id ++ "_" ++ description.key }

/-- Embedding of async_setup_entry (sensor.py lines 280-316): compute the
available keys, filter SENSOR_TYPES to the descriptions whose key is
available, and build one AirQSensor per surviving description. -/
def async_setup_entry (coordinator : Coordinator) :
    Except PyExc (List AirQSensor) :=
  match availableKeysOf coordinator with
  | Except.error e => Except.error e
  | Except.ok available_keys =>
      Except.ok
        ((SENSOR_TYPES.filter (fun d => available_keys.contains d.key)).map
          (fun d => mkAirQSensor coordinator d))

/-- Embedding of the AirQSensor.native_value property (sensor.py lines
337-346): data.get of the description key (None while the sensor warms
up), passed through value_transform_fn. -/
def native_value (s : AirQSensor) : Except PyExc PyVal :=
  s.entity_description.value_transform_fn
    (pyGet s.coordinator.data s.entity_description.key)

/-- The availability predicate of sensor.py lines 288-305, spelled out:
a key is available when it is a key of the coordinator data mapping, or
when the Status value is a dict and the key is one of the warming-up
keys extracted from it. -/
def keyAvailable (coordinator : Coordinator) (k : String) : Prop :=
  k ∈ coordinator.data.map Prod.fst
  ∨ ∃ st w, dictGet coordinator.data "Status" = Option.some (PyVal.dict st)
      ∧ warmingUpSensors st = Except.ok w ∧ k ∈ w

/-- A client whose authenticate call raises CannotConnect. -/
def clientOfC1 : String → String → DeviceClient :=
  fun _ _ => { test_authentication := Except.error PyExc.cannotConnect,
               get_config := Except.ok [] }

/-- A schema-shaped user input. -/
def inputC1 : List (String × String) :=
  [("ip_address", "192.168.0.10"), ("secret", "passw")]

/-- A client whose authenticate call returns False. -/
def clientOfC3 : String → String → DeviceClient :=
  fun _ _ => { test_authentication := Except.ok false, get_config := Except.ok [] }

/-- A schema-shaped user input. -/
def inputC3 : List (String × String) :=
  [("ip_address", "10.0.0.3"), ("secret", "wrong")]

/-- A client whose authenticate call raises a library connection error,
an exception that is neither CannotConnect nor InvalidAuth. -/
def clientOfC4 : String → String → DeviceClient :=
  fun _ _ => { test_authentication := Except.error (PyExc.other "ClientConnectionError"),
               get_config := Except.ok [] }

/-- A schema-shaped user input. -/
def inputC4 : List (String × String) :=
  [("ip_address", "10.0.0.4"), ("secret", "pw4")]

/-- A client that authenticates and serves a config mapping. -/
def clientOfC7 : String → String → DeviceClient :=
  fun _ _ => { test_authentication := Except.ok true,
               get_config := Except.ok
                 [("devicename", PyVal.str "airq-livingroom"),
                  ("id", PyVal.str "id123")] }

/-- A schema-shaped user input. -/
def inputC7 : List (String × String) :=
  [("ip_address", "10.0.0.7"), ("secret", "hunter2")]

/-- Coordinator data in which the health and co keys are absent from the
data mapping but listed under Status as warming up. -/
def coordC2 : Coordinator :=
  { data := [("Status", PyVal.dict
      [("co", PyVal.str "co sensor still in warm up phase"),
       ("health", PyVal.str "health sensor still in warm up phase")])],
    device_id := "devC2" }

/-- Coordinator data with one catalog key present and a non-dict Status. -/
def coordC5 : Coordinator :=
  { data := [("co", PyVal.num 2), ("Status", PyVal.str "OK")], device_id := "devC5" }

/-- Coordinator data holding raw index and concentration readings. -/
def coordC6 : Coordinator :=
  { data := [("health", PyVal.num 42), ("co", PyVal.num 7)], device_id := "devC6" }

/-- Coordinator data with no Status key at all. -/
def coordC9a : Coordinator := { data := [("co", PyVal.num 1)], device_id := "devC9" }

/-- Coordinator data whose Status value is not a mapping. -/
def coordC9b : Coordinator :=
  { data := [("co", PyVal.num 1), ("Status", PyVal.num 5)], device_id := "devC9" }

/-- Coordinator data in which the key co occurs both in the data mapping
and in the warm-up status list, so available_keys holds it twice. -/
def coordC10 : Coordinator :=
  { data := [("co", PyVal.num 1),
      ("Status", PyVal.dict [("co", PyVal.str "co sensor still in warm up phase")])],
    device_id := "devC10" }

/-- The trace of client calls of one validate_input run is empty (a data
KeyError before any call), the auth call alone, or the auth call followed
by the config fetch. -/
lemma validate_input_trace_cases (clientOf : String → String → DeviceClient)
    (data : List (String × String)) :
    (validate_input clientOf data).2 = []
    ∨ (validate_input clientOf data).2 = [ClientCall.testAuth]
    ∨ (validate_input clientOf data).2 = [ClientCall.testAuth, ClientCall.getConfig] := by
  unfold validate_input
  repeat' split
  all_goals simp

/-- validate_input performs the authenticate call at most once per run:
there is no retry inside a submission. -/
lemma validate_input_auth_once (clientOf : String → String → DeviceClient)
    (data : List (String × String)) :
    ((validate_input clientOf data).2).count ClientCall.testAuth ≤ 1 := by
  rcases validate_input_trace_cases clientOf data with h | h | h <;> rw [h] <;> decide

/-- When the config endpoint was fetched, the credentials were found in
the data, the authenticate call came first and returned True. -/
lemma trace_getConfig_auth (clientOf : String → String → DeviceClient)
    (data : List (String × String))
    (h : ClientCall.getConfig ∈ (validate_input clientOf data).2) :
    ∃ a s, (data.find? (fun kv => kv.1 == CONF_IP_ADDRESS)).map Prod.snd = Option.some a
      ∧ (data.find? (fun kv => kv.1 == CONF_SECRET)).map Prod.snd = Option.some s
      ∧ (clientOf a s).test_authentication = Except.ok true
      ∧ (validate_input clientOf data).2 = [ClientCall.testAuth, ClientCall.getConfig] := by
  have htr : (validate_input clientOf data).2 = [ClientCall.testAuth, ClientCall.getConfig] := by
    rcases validate_input_trace_cases clientOf data with h1 | h1 | h1
    · rw [h1] at h; simp at h
    · rw [h1] at h; simp at h
    · exact h1
  unfold validate_input at h
  repeat' split at h
  all_goals first
    | exact ⟨_, _, by assumption, by assumption, by assumption, htr⟩
    | simp at h

/-- pyIndex raises KeyError on a missing key, never CannotConnect. -/
lemma pyIndex_no_cannotConnect (d : List (String × PyVal)) (k : String) :
    pyIndex d k ≠ Except.error PyExc.cannotConnect := by
  unfold pyIndex
  rcases h : dictGet d k with _ | v <;> simp

/-- validate_input itself contains no raise of CannotConnect: a
CannotConnect out of validation can only have been raised by the external
client inside one of its two calls. -/
lemma validate_input_cannotConnect_only_from_client
    (clientOf : String → String → DeviceClient) (data : List (String × String))
    (h : (validate_input clientOf data).1 = Except.error PyExc.cannotConnect) :
    ∃ a s, (clientOf a s).test_authentication = Except.error PyExc.cannotConnect
      ∨ (clientOf a s).get_config = Except.error PyExc.cannotConnect := by
  unfold validate_input at h
  repeat' split at h
  all_goals simp at h
  all_goals subst h
  · exact ⟨_, _, Or.inl (by assumption)⟩
  · exact ⟨_, _, Or.inr (by assumption)⟩
  · exact absurd (by assumption) (pyIndex_no_cannotConnect _ "devicename")
  · exact absurd (by assumption) (pyIndex_no_cannotConnect _ "id")

/-- C1: when validation fails with the CannotConnect exception, the
module class whose docstring marks it as the cannot-connect outcome,
async_step_user re-shows the user form whose errors dict is exactly
base maps-to cannot_connect, so a connection failure signalled this way
never carries the invalid_auth or unknown code, nothing is logged, and
no entry is created. -/
theorem cannotConnect_maps_to_cannot_connect_code
    (clientOf : String → String → DeviceClient)
    (alreadyConfigured : PyVal → Bool)
    (input : List (String × String))
    (h : (validate_input clientOf input).1 = Except.error PyExc.cannotConnect) :
    async_step_user clientOf alreadyConfigured (Option.some input) =
      { result := FlowResult.showForm "user" [("base", "cannot_connect")],
        log := [],
        calls := (validate_input clientOf input).2 } := by
  simp only [async_step_user]
  rcases hv : validate_input clientOf input with ⟨r, calls⟩
  rw [hv] at h
  simp at h
  subst h
  rfl

/-- C1 witness: a client whose authenticate call raises CannotConnect
drives the handler to the cannot_connect form error. -/
theorem cannotConnect_maps_to_cannot_connect_code_witness :
    (validate_input clientOfC1 inputC1).1 = Except.error PyExc.cannotConnect
    ∧ async_step_user clientOfC1 (fun _ => false) (Option.some inputC1) =
      { result := FlowResult.showForm "user" [("base", "cannot_connect")],
        log := [], calls := (validate_input clientOfC1 inputC1).2 } :=
  ⟨rfl, cannotConnect_maps_to_cannot_connect_code clientOfC1 (fun _ => false) inputC1 rfl⟩

/-- C3: when the client authenticate call returns False, validate_input
raises InvalidAuth after the single auth call, async_step_user re-shows
the form with the invalid_auth error code, no entry is created (the
result is a form, not an entry), and the config endpoint is never
fetched. -/
theorem auth_false_yields_invalid_auth
    (clientOf : String → String → DeviceClient)
    (alreadyConfigured : PyVal → Bool)
    (input : List (String × String)) (a s : String)
    (hip : (input.find? (fun kv => kv.1 == CONF_IP_ADDRESS)).map Prod.snd = Option.some a)
    (hs : (input.find? (fun kv => kv.1 == CONF_SECRET)).map Prod.snd = Option.some s)
    (hauth : (clientOf a s).test_authentication = Except.ok false) :
    validate_input clientOf input = (Except.error PyExc.invalidAuth, [ClientCall.testAuth])
    ∧ async_step_user clientOf alreadyConfigured (Option.some input) =
        { result := FlowResult.showForm "user" [("base", "invalid_auth")],
          log := [], calls := [ClientCall.testAuth] }
    ∧ ClientCall.getConfig ∉ (validate_input clientOf input).2 := by
  have hval : validate_input clientOf input
      = (Except.error PyExc.invalidAuth, [ClientCall.testAuth]) := by
    simp [validate_input, hip, hs, hauth]
  refine ⟨hval, ?_, ?_⟩
  · simp only [async_step_user]
    rw [hval]
  · rw [hval]
    decide

/-- C3 witness: a concrete client answering False on authenticate. -/
theorem auth_false_yields_invalid_auth_witness :
    (inputC3.find? (fun kv => kv.1 == CONF_IP_ADDRESS)).map Prod.snd = Option.some "10.0.0.3"
    ∧ (clientOfC3 "10.0.0.3" "wrong").test_authentication = Except.ok false
    ∧ validate_input clientOfC3 inputC3
        = (Except.error PyExc.invalidAuth, [ClientCall.testAuth]) :=
  ⟨rfl, rfl, (auth_false_yields_invalid_auth clientOfC3 (fun _ => false) inputC3
    "10.0.0.3" "wrong" rfl rfl rfl).1⟩

/-- C4: when validation raises an exception that is neither CannotConnect
nor InvalidAuth, async_step_user swallows it (the embedding is total: the
step returns a form instead of propagating), logs the record Unexpected
exception, re-shows the form with the generic unknown code, creates no
entry, and has attempted authentication at most once, so there is no
retry; the user may simply submit the form again. -/
theorem unexpected_exception_yields_unknown
    (clientOf : String → String → DeviceClient)
    (alreadyConfigured : PyVal → Bool)
    (input : List (String × String)) (ename : String)
    (h : (validate_input clientOf input).1 = Except.error (PyExc.other ename)) :
    async_step_user clientOf alreadyConfigured (Option.some input) =
      { result := FlowResult.showForm "user" [("base", "unknown")],
        log := ["Unexpected exception"],
        calls := (validate_input clientOf input).2 }
    ∧ ((validate_input clientOf input).2).count ClientCall.testAuth ≤ 1 := by
  constructor
  · simp only [async_step_user]
    rcases hv : validate_input clientOf input with ⟨r, calls⟩
    rw [hv] at h
    simp at h
    subst h
    rfl
  · exact validate_input_auth_once clientOf input

/-- C4 witness: a client connection error from the library is swallowed
into the unknown code. -/
theorem unexpected_exception_yields_unknown_witness :
    (validate_input clientOfC4 inputC4).1
      = Except.error (PyExc.other "ClientConnectionError")
    ∧ async_step_user clientOfC4 (fun _ => false) (Option.some inputC4) =
      { result := FlowResult.showForm "user" [("base", "unknown")],
        log := ["Unexpected exception"],
        calls := (validate_input clientOfC4 inputC4).2 } :=
  ⟨rfl, (unexpected_exception_yields_unknown clientOfC4 (fun _ => false) inputC4
    "ClientConnectionError" rfl).1⟩

/-- C7: validation is the linear sequence authenticate, then fetch of the
config endpoint, then derivation of the result: on success it returns the
title Air-Q followed by the reported devicename together with the config
id entry, the call trace is exactly the auth call followed by the config
fetch, the success path of async_step_user sets that id as the unique id
of the created entry, and, for every run whatsoever, a config fetch in
the trace implies the authenticate call happened and returned True. -/
theorem validation_sequence_title_and_id
    (clientOf : String → String → DeviceClient)
    (input : List (String × String)) (a s : String)
    (cfg : List (String × PyVal)) (dn : String) (idv : PyVal)
    (hip : (input.find? (fun kv => kv.1 == CONF_IP_ADDRESS)).map Prod.snd = Option.some a)
    (hs : (input.find? (fun kv => kv.1 == CONF_SECRET)).map Prod.snd = Option.some s)
    (hauth : (clientOf a s).test_authentication = Except.ok true)
    (hcfg : (clientOf a s).get_config = Except.ok cfg)
    (hdn : dictGet cfg "devicename" = Option.some (PyVal.str dn))
    (hid : dictGet cfg "id" = Option.some idv) :
    validate_input clientOf input =
      (Except.ok { title := "Air-Q " ++ dn, id := idv },
        [ClientCall.testAuth, ClientCall.getConfig])
    ∧ (∀ alreadyConfigured : PyVal → Bool, alreadyConfigured idv = false →
        async_step_user clientOf alreadyConfigured (Option.some input) =
          { result := FlowResult.createEntry idv ("Air-Q " ++ dn) input,
            log := [], calls := [ClientCall.testAuth, ClientCall.getConfig] })
    ∧ (∀ (clientOf' : String → String → DeviceClient) (data' : List (String × String)),
        ClientCall.getConfig ∈ (validate_input clientOf' data').2 →
        (validate_input clientOf' data').2 = [ClientCall.testAuth, ClientCall.getConfig]
        ∧ ∃ a' s', (data'.find? (fun kv => kv.1 == CONF_IP_ADDRESS)).map Prod.snd = Option.some a'
            ∧ (data'.find? (fun kv => kv.1 == CONF_SECRET)).map Prod.snd = Option.some s'
            ∧ (clientOf' a' s').test_authentication = Except.ok true) := by
  have hval : validate_input clientOf input =
      (Except.ok { title := "Air-Q " ++ dn, id := idv },
        [ClientCall.testAuth, ClientCall.getConfig]) := by
    simp [validate_input, hip, hs, hauth, hcfg, pyIndex, hdn, hid, pyStr]
  refine ⟨hval, ?_, ?_⟩
  · intro alreadyConfigured hac
    simp only [async_step_user]
    rw [hval]
    simp [hac]
  · intro clientOf' data' hmem
    obtain ⟨a', s', h1, h2, h3, h4⟩ := trace_getConfig_auth clientOf' data' hmem
    exact ⟨h4, a', s', h1, h2, h3⟩

/-- C7 witness: a concrete client serving devicename airq-livingroom and
id id123 yields the title Air-Q airq-livingroom and that id. -/
theorem validation_sequence_title_and_id_witness :
    (clientOfC7 "10.0.0.7" "hunter2").test_authentication = Except.ok true
    ∧ validate_input clientOfC7 inputC7 =
      (Except.ok { title := "Air-Q airq-livingroom", id := PyVal.str "id123" },
        [ClientCall.testAuth, ClientCall.getConfig]) :=
  ⟨rfl, (validation_sequence_title_and_id clientOfC7 inputC7 "10.0.0.7" "hunter2"
    [("devicename", PyVal.str "airq-livingroom"), ("id", PyVal.str "id123")]
    "airq-livingroom" (PyVal.str "id123") rfl rfl rfl rfl rfl rfl).1⟩

/-- C8: whenever async_step_user creates an entry, the entry data is the
raw user input unchanged (the same association list, no field added,
removed or rewritten), its title and unique id come from the successful
validation result, and the unique id was not already configured. -/
theorem create_entry_stores_raw_user_input
    (clientOf : String → String → DeviceClient)
    (alreadyConfigured : PyVal → Bool)
    (input : List (String × String)) (uid : PyVal) (title : String)
    (entryData : List (String × String))
    (h : (async_step_user clientOf alreadyConfigured (Option.some input)).result
          = FlowResult.createEntry uid title entryData) :
    entryData = input
    ∧ ∃ info : ValidationInfo, (validate_input clientOf input).1 = Except.ok info
        ∧ title = info.title ∧ uid = info.id ∧ alreadyConfigured info.id = false := by
  simp only [async_step_user] at h
  rcases hv : validate_input clientOf input with ⟨r, calls⟩
  rw [hv] at h
  rcases r with e | info
  · cases e <;> simp at h
  · by_cases hac : alreadyConfigured info.id
    · simp [hac] at h
    · simp only [Bool.not_eq_true] at hac
      simp [hac] at h
      obtain ⟨h1, h2, h3⟩ := h
      exact ⟨h3.symm, info, by simp [hv], h2.symm, h1.symm, hac⟩

/-- C8 witness: the successful concrete run creates the entry with the
submitted input as its data. -/
theorem create_entry_stores_raw_user_input_witness :
    (async_step_user clientOfC7 (fun _ => false) (Option.some inputC7)).result
      = FlowResult.createEntry (PyVal.str "id123") "Air-Q airq-livingroom" inputC7
    ∧ inputC7 = inputC7 :=
  ⟨rfl, (create_entry_stores_raw_user_input clientOfC7 (fun _ => false) inputC7
    (PyVal.str "id123") "Air-Q airq-livingroom" inputC7 rfl).1⟩

/-- Left cancellation of string concatenation. -/
lemma str_append_cancel {s a b : String} (h : s ++ a = s ++ b) : a = b := by
  rw [String.ext_iff, String.data_append, String.data_append] at h
  exact String.ext (List.append_cancel_left h)

/-- pyIndex succeeds exactly on the keys the dict binds. -/
lemma pyIndex_ok_iff (d : List (String × PyVal)) (k : String) (v : PyVal) :
    pyIndex d k = Except.ok v ↔ dictGet d k = Option.some v := by
  unfold pyIndex
  rcases h : dictGet d k with _ | w <;> simp [h]

/-- When the key is bound in the coordinator data, native_value is the
value_transform_fn applied to the stored value. -/
lemma native_value_of_present (coordinator : Coordinator)
    (d : AirQEntityDescription) (v : PyVal)
    (hv : dictGet coordinator.data d.key = Option.some v) :
    native_value (mkAirQSensor coordinator d) = d.value_transform_fn v := by
  simp [native_value, mkAirQSensor, pyGet, hv]

/-- The key list computed by availableKeysOf holds exactly the available
keys in the sense of keyAvailable. -/
lemma availableKeysOf_mem (coordinator : Coordinator) (ks : List String)
    (hk : availableKeysOf coordinator = Except.ok ks) (k : String) :
    k ∈ ks ↔ keyAvailable coordinator k := by
  simp only [availableKeysOf] at hk
  rcases hst : pyIndex coordinator.data "Status" with e | status
  · simp [hst] at hk
  · have hd : dictGet coordinator.data "Status" = Option.some status :=
      (pyIndex_ok_iff _ _ _).mp hst
    cases status with
    | dict st =>
      simp only [hst] at hk
      rcases hw : warmingUpSensors st with e | w
      · simp [hw] at hk
      · simp only [hw] at hk
        injection hk with hk
        subst hk
        constructor
        · intro hmem
          rcases List.mem_append.mp hmem with h | h
          · exact Or.inl h
          · exact Or.inr ⟨st, w, hd, hw, h⟩
        · intro hav
          rcases hav with h | ⟨st', w', hd', hw', h⟩
          · exact List.mem_append.mpr (Or.inl h)
          · rw [hd] at hd'
            injection hd' with hd'
            injection hd' with hd'
            subst hd'
            rw [hw] at hw'
            injection hw' with hw'
            subst hw'
            exact List.mem_append.mpr (Or.inr h)
    | none =>
      simp only [hst] at hk
      injection hk with hk
      subst hk
      constructor
      · exact fun h => Or.inl h
      · intro hav
        rcases hav with h | ⟨st', w', hd', hw', h⟩
        · exact h
        · rw [hd] at hd'; cases hd'
    | num q =>
      simp only [hst] at hk
      injection hk with hk
      subst hk
      constructor
      · exact fun h => Or.inl h
      · intro hav
        rcases hav with h | ⟨st', w', hd', hw', h⟩
        · exact h
        · rw [hd] at hd'; cases hd'
    | str s =>
      simp only [hst] at hk
      injection hk with hk
      subst hk
      constructor
      · exact fun h => Or.inl h
      · intro hav
        rcases hav with h | ⟨st', w', hd', hw', h⟩
        · exact h
        · rw [hd] at hd'; cases hd'

/-- A successful async_setup_entry is the filter of the catalog by the
computed available keys, mapped through the sensor constructor. -/
lemma async_setup_entry_ok (coordinator : Coordinator) (entities : List AirQSensor)
    (he : async_setup_entry coordinator = Except.ok entities) :
    ∃ ks, availableKeysOf coordinator = Except.ok ks
      ∧ entities = (SENSOR_TYPES.filter (fun d => ks.contains d.key)).map
          (fun d => mkAirQSensor coordinator d) := by
  unfold async_setup_entry at he
  rcases hk : availableKeysOf coordinator with e | ks
  · rw [hk] at he; cases he
  · rw [hk] at he
    injection he with he
    exact ⟨ks, rfl, he.symm⟩

/-- C2 (code bug evaluation): with the health and co keys absent from the
data mapping but listed under Status with the warm-up phrase, both
entities are created; the co sensor (identity transform) reads None as
the claim states, but the health index sensor applies _index2percent to
the missing reading None and raises TypeError (the Python division
None / 10.0), instead of the None return promised by the claim and by
the property annotation float or int or None on native_value. -/
theorem health_warmup_read_raises_type_error :
    (async_setup_entry coordC2).toOption.map (List.map (fun e => e.entity_description.key))
      = Option.some ["co", "health"]
    ∧ dictGet coordC2.data "health" = Option.none
    ∧ (async_setup_entry coordC2).toOption.map (List.map native_value)
      = Option.some [Except.ok PyVal.none, Except.error (PyExc.other "TypeError")] :=
  ⟨rfl, rfl, rfl⟩

/-- C5: the created entities are exactly the catalog entries whose key is
available (present in the data mapping or warming up per the Status
dict): a catalog entry whose key is not available yields no entity with
its key, every created entity is a catalog entry with an available key,
and every catalog entry with an available key yields its entity. -/
theorem setup_entry_filters_catalog_by_available_keys
    (coordinator : Coordinator) (entities : List AirQSensor)
    (he : async_setup_entry coordinator = Except.ok entities) :
    (∀ d ∈ SENSOR_TYPES, ¬ keyAvailable coordinator d.key →
      ∀ e ∈ entities, e.entity_description.key ≠ d.key)
    ∧ (∀ e ∈ entities, e.entity_description ∈ SENSOR_TYPES
        ∧ keyAvailable coordinator e.entity_description.key)
    ∧ (∀ d ∈ SENSOR_TYPES, keyAvailable coordinator d.key →
        mkAirQSensor coordinator d ∈ entities) := by
  obtain ⟨ks, hks, rfl⟩ := async_setup_entry_ok coordinator entities he
  have hmem := availableKeysOf_mem coordinator ks hks
  refine ⟨?_, ?_, ?_⟩
  · intro d _ hna e hemem hkey
    obtain ⟨d', hd', rfl⟩ := List.mem_map.mp hemem
    obtain ⟨_, hd'k⟩ := List.mem_filter.mp hd'
    apply hna
    rw [← hmem d.key]
    simp only [mkAirQSensor] at hkey
    rw [← hkey]
    simpa using hd'k
  · intro e hemem
    obtain ⟨d', hd', rfl⟩ := List.mem_map.mp hemem
    obtain ⟨hd'S, hd'k⟩ := List.mem_filter.mp hd'
    refine ⟨hd'S, ?_⟩
    rw [← hmem]
    simpa [mkAirQSensor] using hd'k
  · intro d hd hav
    refine List.mem_map.mpr ⟨d, List.mem_filter.mpr ⟨hd, ?_⟩, rfl⟩
    simpa using (hmem d.key).mpr hav

/-- C5 witness: a coordinator reporting only the co key creates exactly
the co entity, a catalog entry with an available key. -/
theorem setup_entry_filters_catalog_by_available_keys_witness :
    async_setup_entry coordC5
      = Except.ok [mkAirQSensor coordC5 (SENSOR_TYPES.get ⟨2, by decide⟩)]
    ∧ (mkAirQSensor coordC5 (SENSOR_TYPES.get ⟨2, by decide⟩)).entity_description ∈ SENSOR_TYPES
    ∧ keyAvailable coordC5
        (mkAirQSensor coordC5 (SENSOR_TYPES.get ⟨2, by decide⟩)).entity_description.key := by
  have h : async_setup_entry coordC5
      = Except.ok [mkAirQSensor coordC5 (SENSOR_TYPES.get ⟨2, by decide⟩)] := rfl
  have h2 := (setup_entry_filters_catalog_by_available_keys coordC5
    [mkAirQSensor coordC5 (SENSOR_TYPES.get ⟨2, by decide⟩)] h).2.1
    (mkAirQSensor coordC5 (SENSOR_TYPES.get ⟨2, by decide⟩)) (List.mem_singleton.mpr rfl)
  exact ⟨h, h2⟩

/-- C6: for a sensor whose key is bound in the coordinator data, each
native_value read is the declared value_transform_fn applied exactly once
to the stored raw value; for the health and performance catalog entries
a numeric raw value is divided by 10, and for every other catalog entry
the raw value is returned unchanged. -/
theorem native_value_applies_transform_once :
    ∀ d ∈ SENSOR_TYPES, ∀ (coordinator : Coordinator) (v : PyVal),
    dictGet coordinator.data d.key = Option.some v →
    native_value (mkAirQSensor coordinator d) = d.value_transform_fn v
    ∧ ((d.key = "health" ∨ d.key = "performance") →
        ∀ q : ℚ, v = PyVal.num q →
        native_value (mkAirQSensor coordinator d) = Except.ok (PyVal.num (q / 10)))
    ∧ (d.key ≠ "health" → d.key ≠ "performance" →
        native_value (mkAirQSensor coordinator d) = Except.ok v) := by
  intro d hd coordinator v hv
  have hbase := native_value_of_present coordinator d v hv
  fin_cases hd <;>
    refine ⟨hbase, fun hk q hq => ?_, fun h1 h2 => ?_⟩ <;>
    first
      | exact absurd hk (by decide)
      | exact absurd rfl h1
      | exact absurd rfl h2
      | (subst hq; rw [hbase]; rfl)
      | rw [hbase]

/-- C6 witness: a stored health index of 42 reads as 42 / 10 and a
stored co value of 7 reads back unchanged. -/
theorem native_value_applies_transform_once_witness :
    dictGet coordC6.data (SENSOR_TYPES.get ⟨8, by decide⟩).key = Option.some (PyVal.num 42)
    ∧ native_value (mkAirQSensor coordC6 (SENSOR_TYPES.get ⟨8, by decide⟩))
        = Except.ok (PyVal.num (42 / 10))
    ∧ native_value (mkAirQSensor coordC6 (SENSOR_TYPES.get ⟨2, by decide⟩))
        = Except.ok (PyVal.num 7) := by
  refine ⟨rfl, ?_, ?_⟩
  · exact (native_value_applies_transform_once (SENSOR_TYPES.get ⟨8, by decide⟩)
      (SENSOR_TYPES.get_mem 8 (by decide)) coordC6 (PyVal.num 42) rfl).2.1 (Or.inl rfl) 42 rfl
  · exact (native_value_applies_transform_once (SENSOR_TYPES.get ⟨2, by decide⟩)
      (SENSOR_TYPES.get_mem 2 (by decide)) coordC6 (PyVal.num 7) rfl).2.2 (by decide) (by decide)

/-- C9: async_setup_entry indexes the coordinator data at Status
unconditionally: with no Status key it raises KeyError before creating
anything, while a Status value that is not a dict is tolerated, the
warm-up scan is skipped, and the entities are filtered by the data keys
alone. -/
theorem setup_entry_requires_status_key (coordinator : Coordinator) :
    (dictGet coordinator.data "Status" = Option.none →
      async_setup_entry coordinator = Except.error (PyExc.other "KeyError"))
    ∧ (∀ s, dictGet coordinator.data "Status" = Option.some s →
        (∀ st, s ≠ PyVal.dict st) →
        async_setup_entry coordinator = Except.ok
          ((SENSOR_TYPES.filter (fun d =>
              (coordinator.data.map Prod.fst).contains d.key)).map
            (fun d => mkAirQSensor coordinator d))) := by
  constructor
  · intro h
    simp [async_setup_entry, availableKeysOf, pyIndex, h]
  · intro s hs hnd
    cases s with
    | dict st => exact absurd rfl (hnd st)
    | none => simp [async_setup_entry, availableKeysOf, pyIndex, hs]
    | num q => simp [async_setup_entry, availableKeysOf, pyIndex, hs]
    | str t => simp [async_setup_entry, availableKeysOf, pyIndex, hs]

/-- C9 witness: a data mapping without Status raises KeyError; one whose
Status is the number 5 sets up from the data keys alone. -/
theorem setup_entry_requires_status_key_witness :
    dictGet coordC9a.data "Status" = Option.none
    ∧ async_setup_entry coordC9a = Except.error (PyExc.other "KeyError")
    ∧ dictGet coordC9b.data "Status" = Option.some (PyVal.num 5)
    ∧ async_setup_entry coordC9b = Except.ok
        ((SENSOR_TYPES.filter (fun d =>
            (coordC9b.data.map Prod.fst).contains d.key)).map
          (fun d => mkAirQSensor coordC9b d)) :=
  ⟨rfl, (setup_entry_requires_status_key coordC9a).1 rfl, rfl,
    (setup_entry_requires_status_key coordC9b).2 (PyVal.num 5) rfl
      (fun _st h => PyVal.noConfusion h)⟩

/-- C10: the catalog keys are pairwise distinct; hence every successful
setup creates at most one entity per catalog entry, even when a key
occurs both in the data mapping and in the warm-up list so that
available_keys holds duplicates, and the unique ids of the created
entities, device id joined to the key by an underscore, are pairwise
distinct. -/
theorem sensor_catalog_keys_and_unique_ids_distinct :
    (SENSOR_TYPES.map (fun d => d.key)).Nodup
    ∧ ∀ (coordinator : Coordinator) (entities : List AirQSensor),
        async_setup_entry coordinator = Except.ok entities →
        (∀ d ∈ SENSOR_TYPES,
          entities.countP (fun e => e.entity_description.key == d.key) ≤ 1)
        ∧ (entities.map (fun e => e.unique_id)).Nodup := by
  have hkeys : (SENSOR_TYPES.map (fun d => d.key)).Nodup := by decide
  refine ⟨hkeys, ?_⟩
  intro coordinator entities he
  obtain ⟨ks, hks, rfl⟩ := async_setup_entry_ok coordinator entities he
  have hsub : List.Sublist
      ((SENSOR_TYPES.filter (fun d => ks.contains d.key)).map (fun d => d.key))
      (SENSOR_TYPES.map (fun d => d.key)) :=
    (List.filter_sublist _).map _
  constructor
  · intro d _
    rw [List.countP_map]
    have h1 : (SENSOR_TYPES.filter (fun d' => ks.contains d'.key)).countP
        (fun d' => d'.key == d.key)
        ≤ SENSOR_TYPES.countP (fun d' => d'.key == d.key) :=
      (List.filter_sublist _).countP_le _
    have h2 : SENSOR_TYPES.countP (fun d' => d'.key == d.key) ≤ 1 := by
      have h3 : (SENSOR_TYPES.map (fun d' => d'.key)).count d.key ≤ 1 :=
        List.nodup_iff_count_le_one.mp hkeys d.key
      rw [List.count, List.countP_map] at h3
      exact h3
    exact le_trans h1 h2
  · have hnk : ((SENSOR_TYPES.filter (fun d => ks.contains d.key)).map
        (fun d => d.key)).Nodup := hkeys.sublist hsub
    have hinj : Function.Injective (fun k => coordinator.device_id ++ "_" ++ k) := by
      intro x y hxy
      exact str_append_cancel hxy
    have hm := hnk.map hinj
    rw [List.map_map] at hm
    rw [List.map_map]
    exact hm

/-- C10 witness: with the co key both present and warming up, exactly one
co entity is created and its unique id list has no duplicate. -/
theorem sensor_catalog_keys_and_unique_ids_distinct_witness :
    async_setup_entry coordC10
      = Except.ok [mkAirQSensor coordC10 (SENSOR_TYPES.get ⟨2, by decide⟩)]
    ∧ ([mkAirQSensor coordC10 (SENSOR_TYPES.get ⟨2, by decide⟩)].countP
        (fun e => e.entity_description.key == (SENSOR_TYPES.get ⟨2, by decide⟩).key)) ≤ 1
    ∧ ([mkAirQSensor coordC10 (SENSOR_TYPES.get ⟨2, by decide⟩)].map
        (fun e => e.unique_id)).Nodup := by
  have h : async_setup_entry coordC10
      = Except.ok [mkAirQSensor coordC10 (SENSOR_TYPES.get ⟨2, by decide⟩)] := rfl
  have h2 := sensor_catalog_keys_and_unique_ids_distinct.2 coordC10
    [mkAirQSensor coordC10 (SENSOR_TYPES.get ⟨2, by decide⟩)] h
  exact ⟨h, h2.1 (SENSOR_TYPES.get ⟨2, by decide⟩) (SENSOR_TYPES.get_mem 2 (by decide)), h2.2⟩
